import Mathlib

/-!
# Verification of the microlensing animation core (src/main.py)

Shallow embedding of the computational core of the repository: the orbit
sampler (src/main.py lines 122-140, 195-198) and the magnification model
`calculate_magnification` (src/main.py lines 25-118).

The Python source computes with IEEE double-precision floats and numpy; the
embedding models those computations over the exact reals `ℝ`.  All claims
settled here concern the mathematical behaviour of the formulas, and every
numeric inequality used in a proof holds with a margin that is many orders
of magnitude wider than double-precision rounding error.

Two conventions of the embedding, matching the observable behaviour of the
source at every input:

* Division by zero.  numpy produces `nan` when a zero-length vector is
  normalised (src/main.py lines 30, 65); every subsequent comparison with
  `nan` is false, so the alignment gate fails and the function returns the
  baseline `1.0`.  In Lean, `x / 0 = 0`, the clipped dot product becomes
  `0`, `Real.arccos 0 = π/2` is not below the angular tolerance, so the
  gate likewise fails and the function returns `1.0`.  The returned values
  agree at every input.

* `np.sqrt` of a negative argument.  numpy yields `nan` (line 51); the
  subsequent test `nan <= 0` is false, `u` becomes `nan`, the lens formula
  yields `nan`, and the final `max(1.0, nan)` returns `1.0`.  In Lean,
  `Real.sqrt` of a negative number is `0`, so the guard
  `einstein_radius_visual_proxy <= 0` fires and returns `1.0` directly.
  Again the returned values agree at every input.
-/

namespace Microlens

open Real

/-- 2D vectors, used for all positions (spec §3 `Vector2`). -/
abbrev Vec2 : Type := ℝ × ℝ

/-- Componentwise subtraction, `np.array(a) - np.array(b)`. -/
def vsub (a b : Vec2) : Vec2 := (a.1 - b.1, a.2 - b.2)

/-- Componentwise addition. -/
def vadd (a b : Vec2) : Vec2 := (a.1 + b.1, a.2 + b.2)

/-- Scalar multiple of a vector. -/
def smul (c : ℝ) (a : Vec2) : Vec2 := (c * a.1, c * a.2)

/-- Division of a vector by a scalar, `v / c` on numpy arrays. -/
noncomputable def vdiv (a : Vec2) (c : ℝ) : Vec2 := (a.1 / c, a.2 / c)

/-- Dot product, `np.dot`. -/
def dot (a b : Vec2) : ℝ := a.1 * b.1 + a.2 * b.2

/-- Euclidean norm, `np.linalg.norm`. -/
noncomputable def norm2 (a : Vec2) : ℝ := Real.sqrt (a.1 ^ 2 + a.2 ^ 2)

/-- Visual radius of the star (src/main.py line 20); unused by the core math. -/
noncomputable def R_STAR : ℝ := 0.5

/-- Orbit radius of the planet (src/main.py line 21). -/
noncomputable def R_ORBIT : ℝ := 5.0

/-- Distance of the observer from the star (src/main.py line 22). -/
noncomputable def R_OBSERVER_DIST : ℝ := 10.0

/-- Line-of-sight data: `vec_obs_to_star` (src/main.py line 29). -/
def vec_obs_to_star (observer_pos star_pos : Vec2) : Vec2 :=
  vsub star_pos observer_pos

/-- `unit_obs_to_star` (src/main.py line 30). -/
noncomputable def unit_obs_to_star (observer_pos star_pos : Vec2) : Vec2 :=
  vdiv (vec_obs_to_star observer_pos star_pos)
    (norm2 (vec_obs_to_star observer_pos star_pos))

/-- `vec_obs_to_planet` (src/main.py line 33). -/
def vec_obs_to_planet (planet_pos observer_pos : Vec2) : Vec2 :=
  vsub planet_pos observer_pos

/-- Projection of the observer→planet vector on the line of sight
(src/main.py line 42). -/
noncomputable def proj_on_los_length (planet_pos observer_pos star_pos : Vec2) : ℝ :=
  dot (vec_obs_to_planet planet_pos observer_pos) (unit_obs_to_star observer_pos star_pos)

/-- Closest point to the planet on the line of sight (src/main.py line 45). -/
noncomputable def closest_point_on_los (planet_pos observer_pos star_pos : Vec2) : Vec2 :=
  vadd observer_pos
    (smul (proj_on_los_length planet_pos observer_pos star_pos)
      (unit_obs_to_star observer_pos star_pos))

/-- Perpendicular distance from the planet to the line of sight, the impact
parameter `b` (src/main.py line 46). -/
noncomputable def perpendicular_dist (planet_pos observer_pos star_pos : Vec2) : ℝ :=
  norm2 (vsub planet_pos (closest_point_on_los planet_pos observer_pos star_pos))

/-- Einstein-radius visual proxy `0.005 * sqrt(mass_ratio / 0.001)`
(src/main.py line 51). -/
noncomputable def einstein_radius_visual_proxy (planet_mass_ratio : ℝ) : ℝ :=
  0.005 * Real.sqrt (planet_mass_ratio / 0.001)

/-- Normalized impact parameter `u` before the epsilon floor
(src/main.py line 55). -/
noncomputable def u_raw (planet_pos observer_pos star_pos : Vec2)
    (planet_mass_ratio : ℝ) : ℝ :=
  perpendicular_dist planet_pos observer_pos star_pos /
    einstein_radius_visual_proxy planet_mass_ratio

/-- Normalized impact parameter after the epsilon floor at `0.005`
(src/main.py lines 93-94). -/
noncomputable def u_floored (planet_pos observer_pos star_pos : Vec2)
    (planet_mass_ratio : ℝ) : ℝ :=
  if u_raw planet_pos observer_pos star_pos planet_mass_ratio < 0.005 then 0.005
  else u_raw planet_pos observer_pos star_pos planet_mass_ratio

/-- Clipped cosine of the angle between the line of sight and the
observer→planet direction (src/main.py line 65); `np.clip(x, -1, 1)`. -/
noncomputable def dot_product (planet_pos observer_pos star_pos : Vec2) : ℝ :=
  dot (unit_obs_to_star observer_pos star_pos)
    (vdiv (vec_obs_to_planet planet_pos observer_pos)
      (norm2 (vec_obs_to_planet planet_pos observer_pos)))

/-- `alignment_angle = arccos(clip(dot_product, -1, 1))` (src/main.py line 66). -/
noncomputable def alignment_angle (planet_pos observer_pos star_pos : Vec2) : ℝ :=
  Real.arccos (max (-1) (min 1 (dot_product planet_pos observer_pos star_pos)))

/-- `angular_tolerance_rad = np.radians(0.5)` (src/main.py line 70). -/
noncomputable def angular_tolerance_rad : ℝ := 0.5 * (Real.pi / 180)

/-- `dist_obs_to_star` (src/main.py line 82). -/
noncomputable def dist_obs_to_star (observer_pos star_pos : Vec2) : ℝ :=
  norm2 (vec_obs_to_star observer_pos star_pos)

/-- The alignment gate (src/main.py lines 87-88): the angular alignment must
be below the tolerance AND the projection on the line of sight must fall in
`(0.1 * d, 1.1 * d)` where `d` is the observer-star distance. -/
abbrev gate_passes (planet_pos observer_pos star_pos : Vec2) : Prop :=
  alignment_angle planet_pos observer_pos star_pos < angular_tolerance_rad ∧
  0.1 * dist_obs_to_star observer_pos star_pos <
    proj_on_los_length planet_pos observer_pos star_pos ∧
  proj_on_los_length planet_pos observer_pos star_pos <
    1.1 * dist_obs_to_star observer_pos star_pos

/-- The point-source/point-lens magnification formula
`A(u) = (u^2 + 2) / (u * sqrt(u^2 + 4))` (src/main.py line 96). -/
noncomputable def point_lens_A (u : ℝ) : ℝ :=
  (u ^ 2 + 2) / (u * Real.sqrt (u ^ 2 + 4))

/-- `target_gain_for_jupiter = 0.15` (src/main.py line 104). -/
noncomputable def target_gain_for_jupiter : ℝ := 0.15

/-- `base_u_mag`, the raw lens formula at the floor value `u = 0.005`
(src/main.py line 107). -/
noncomputable def base_u_mag : ℝ :=
  (0.005 ^ 2 + 2) / (0.005 * Real.sqrt ((0.005 : ℝ) ^ 2 + 4))

/-- `scaling_factor` (src/main.py line 110). -/
noncomputable def scaling_factor : ℝ :=
  target_gain_for_jupiter / (base_u_mag - 1.0) / (0.001 / 0.001)

/-- The magnification model, `calculate_magnification`
(src/main.py lines 25-118), translated branch by branch:

* line 53: if the Einstein-radius proxy is `≤ 0`, return `1.0`;
* lines 87-89: if the alignment gate fails, return `1.0`;
* lines 93-94: floor `u` at `0.005`;
* line 96: point-lens formula;
* line 112: visual rescaling by `scaling_factor * (mass_ratio / 0.001)`;
* lines 115-116: hard cutoff, `u > 3.0` forces `1.0`;
* line 118: final floor `max(1.0, ...)`. -/
noncomputable def calculate_magnification (planet_pos observer_pos star_pos : Vec2)
    (planet_mass_ratio : ℝ) : ℝ :=
  if einstein_radius_visual_proxy planet_mass_ratio ≤ 0 then 1.0
  else if ¬ gate_passes planet_pos observer_pos star_pos then 1.0
  else
    let u := u_floored planet_pos observer_pos star_pos planet_mass_ratio
    let magnification := point_lens_A u
    let magnification :=
      1.0 + (magnification - 1.0) * scaling_factor * (planet_mass_ratio / 0.001)
    let magnification := if u > 3.0 then 1.0 else magnification
    max 1.0 magnification

/-- Fixed observer position (src/main.py lines 126-129):
distance `R_OBSERVER_DIST` from the origin along the direction
`observer_angle_deg` degrees, with `np.radians(x) = x * π / 180`. -/
noncomputable def observer_pos (observer_angle_deg : ℝ) : Vec2 :=
  (R_OBSERVER_DIST * Real.cos (observer_angle_deg * (Real.pi / 180)),
   R_OBSERVER_DIST * Real.sin (observer_angle_deg * (Real.pi / 180)))

/-- The star is fixed at the origin (src/main.py line 130). -/
def star_pos : Vec2 := (0, 0)

/-- Planet position at integer time step `t` of an orbit with
`orbital_period` steps (src/main.py lines 135-137 and 196-198):
`angle = 2π·t/period`, position `(R_ORBIT·cos angle, R_ORBIT·sin angle)`. -/
noncomputable def planet_pos_at (orbital_period t : ℕ) : Vec2 :=
  (R_ORBIT * Real.cos (2 * Real.pi * t / orbital_period),
   R_ORBIT * Real.sin (2 * Real.pi * t / orbital_period))

/-- The sampled planet path, one position per time step `0, ..., period-1`
(src/main.py lines 123, 195-198). -/
noncomputable def positions (orbital_period : ℕ) : List Vec2 :=
  (List.range orbital_period).map (planet_pos_at orbital_period)

/-- The precomputed magnification sequence (src/main.py lines 133-140):
one magnification per time step, from the planet position at that step and
the fixed observer and star positions. -/
noncomputable def all_magnifications (orbital_period : ℕ)
    (planet_mass_ratio observer_angle_deg : ℝ) : List ℝ :=
  (List.range orbital_period).map fun t =>
    calculate_magnification (planet_pos_at orbital_period t)
      (observer_pos observer_angle_deg) star_pos planet_mass_ratio

/-- Peak magnification over one orbital period, `max(all_magnifications)`
(src/main.py line 145); the fold is seeded with the baseline `1.0`, which
equals the Python `max` on every run since every sample is `≥ 1`. -/
noncomputable def peak_magnification (orbital_period : ℕ)
    (planet_mass_ratio observer_angle_deg : ℝ) : ℝ :=
  (all_magnifications orbital_period planet_mass_ratio observer_angle_deg).foldr max 1

/-! ### Basic facts about the branches of the magnification model -/

lemma norm2_nonneg (a : Vec2) : 0 ≤ norm2 a := Real.sqrt_nonneg _

lemma angular_tolerance_pos : 0 < angular_tolerance_rad := by
  have h := Real.pi_pos
  unfold angular_tolerance_rad
  nlinarith

lemma angular_tolerance_lt_pi_div_two : angular_tolerance_rad < Real.pi / 2 := by
  have h := Real.pi_pos
  unfold angular_tolerance_rad
  nlinarith

lemma angular_tolerance_le_pi : angular_tolerance_rad ≤ Real.pi := by
  have h := Real.pi_pos
  unfold angular_tolerance_rad
  nlinarith

/-- Every return path of `calculate_magnification` yields at least the
baseline `1.0` (src/main.py lines 53, 89, 118). -/
lemma mag_ge_one (p o s : Vec2) (mr : ℝ) : 1 ≤ calculate_magnification p o s mr := by
  simp only [calculate_magnification]
  split_ifs <;> norm_num [le_max_left]

/-- When the alignment gate fails the function returns exactly `1.0`
(src/main.py line 89). -/
lemma mag_eq_one_of_not_gate (p o s : Vec2) (mr : ℝ)
    (h : ¬ gate_passes p o s) : calculate_magnification p o s mr = 1 := by
  simp only [calculate_magnification]
  by_cases h1 : einstein_radius_visual_proxy mr ≤ 0
  · rw [if_pos h1]
    norm_num
  · rw [if_neg h1, if_pos h]
    norm_num

/-- When the (floored) normalized impact parameter exceeds `3.0` the function
returns exactly `1.0` whatever else holds (src/main.py lines 115-118; if the
gate failed the result is `1.0` anyway). -/
lemma mag_eq_one_of_u_gt3 (p o s : Vec2) (mr : ℝ)
    (h : 3 < u_floored p o s mr) : calculate_magnification p o s mr = 1 := by
  simp only [calculate_magnification]
  by_cases h1 : einstein_radius_visual_proxy mr ≤ 0
  · rw [if_pos h1]
    norm_num
  rw [if_neg h1]
  by_cases h2 : gate_passes p o s
  · rw [if_neg (not_not_intro h2)]
    have h3 : u_floored p o s mr > 3.0 := by norm_num; exact h
    rw [if_pos h3]
    norm_num
  · rw [if_pos h2]
    norm_num

lemma proxy_nonpos_of_mr_nonpos {mr : ℝ} (h : mr ≤ 0) :
    einstein_radius_visual_proxy mr ≤ 0 := by
  unfold einstein_radius_visual_proxy
  have hz : Real.sqrt (mr / 0.001) = 0 := by
    refine Real.sqrt_eq_zero'.mpr ?_
    rw [div_nonpos_iff]
    right
    exact ⟨h, by norm_num⟩
  rw [hz]
  norm_num

/-- A nonpositive mass ratio makes the Einstein-radius proxy vanish, so the
guard at src/main.py line 53 returns the baseline.  (For a strictly negative
ratio the source computes `nan` from `np.sqrt`, the comparison `nan <= 0`
is false, and the `nan` then flows to `max(1.0, nan) = 1.0`: the same
returned value.) -/
lemma mag_eq_one_of_mr_nonpos (p o s : Vec2) {mr : ℝ} (h : mr ≤ 0) :
    calculate_magnification p o s mr = 1 := by
  simp only [calculate_magnification]
  rw [if_pos (proxy_nonpos_of_mr_nonpos h)]
  norm_num

lemma proxy_pos {mr : ℝ} (h : 0 < mr) : 0 < einstein_radius_visual_proxy mr := by
  unfold einstein_radius_visual_proxy
  have hs : 0 < Real.sqrt (mr / 0.001) := Real.sqrt_pos.mpr (by positivity)
  nlinarith

/-- With the observer on top of the star the line-of-sight normalization
divides by zero; the clipped direction cosine collapses to `0`. -/
lemma dot_product_obs_eq_star (p o : Vec2) : dot_product p o o = 0 := by
  unfold dot_product unit_obs_to_star vec_obs_to_star vsub vdiv dot
  simp [sub_self]

/-- With the planet on top of the observer the planet-direction normalization
divides by zero; the clipped direction cosine collapses to `0`. -/
lemma dot_product_planet_eq_obs (o s : Vec2) : dot_product o o s = 0 := by
  unfold dot_product vec_obs_to_planet vsub vdiv dot
  simp [sub_self]

lemma not_gate_of_dot_product_zero (p o s : Vec2)
    (h : dot_product p o s = 0) : ¬ gate_passes p o s := by
  intro hg
  have h1 : alignment_angle p o s = Real.pi / 2 := by
    unfold alignment_angle
    rw [h]
    norm_num
  have h2 := hg.1
  rw [h1] at h2
  have := angular_tolerance_lt_pi_div_two
  linarith

lemma mag_obs_eq_star (p o : Vec2) (mr : ℝ) :
    calculate_magnification p o o mr = 1 :=
  mag_eq_one_of_not_gate p o o mr
    (not_gate_of_dot_product_zero p o o (dot_product_obs_eq_star p o))

lemma mag_planet_eq_obs (o s : Vec2) (mr : ℝ) :
    calculate_magnification o o s mr = 1 :=
  mag_eq_one_of_not_gate o o s mr
    (not_gate_of_dot_product_zero o o s (dot_product_planet_eq_obs o s))

/-! ### Reduction of the geometry to the angular offset between planet and
observer.  With the star at the origin, an observer at distance `10` along
direction `φ` and the planet on the orbit circle of radius `5` at direction
`θ`, every geometric quantity of the model depends only on `ψ = θ - φ`. -/

lemma norm2_vec_obs_to_star_orbit (φ : ℝ) :
    norm2 (vec_obs_to_star (10 * Real.cos φ, 10 * Real.sin φ) star_pos) = 10 := by
  unfold vec_obs_to_star vsub star_pos norm2
  simp only
  have key : (0 - 10 * Real.cos φ) ^ 2 + (0 - 10 * Real.sin φ) ^ 2 = 100 := by
    linear_combination 100 * Real.sin_sq_add_cos_sq φ
  rw [key, show (100 : ℝ) = 10 ^ 2 by norm_num, Real.sqrt_sq (by norm_num)]

lemma unit_obs_to_star_orbit (φ : ℝ) :
    unit_obs_to_star (10 * Real.cos φ, 10 * Real.sin φ) star_pos =
      (-Real.cos φ, -Real.sin φ) := by
  unfold unit_obs_to_star
  rw [norm2_vec_obs_to_star_orbit]
  unfold vec_obs_to_star vsub vdiv star_pos
  refine Prod.ext ?_ ?_ <;> simp only <;> ring

lemma dist_obs_to_star_orbit (φ : ℝ) :
    dist_obs_to_star (10 * Real.cos φ, 10 * Real.sin φ) star_pos = 10 :=
  norm2_vec_obs_to_star_orbit φ

lemma proj_orbit (θ φ : ℝ) :
    proj_on_los_length (5 * Real.cos θ, 5 * Real.sin θ)
      (10 * Real.cos φ, 10 * Real.sin φ) star_pos = 10 - 5 * Real.cos (θ - φ) := by
  unfold proj_on_los_length
  rw [unit_obs_to_star_orbit]
  unfold vec_obs_to_planet vsub dot
  simp only
  rw [Real.cos_sub]
  linear_combination 10 * Real.sin_sq_add_cos_sq φ

lemma norm2_vec_obs_to_planet_orbit (θ φ : ℝ) :
    norm2 (vec_obs_to_planet (5 * Real.cos θ, 5 * Real.sin θ)
        (10 * Real.cos φ, 10 * Real.sin φ)) =
      Real.sqrt (125 - 100 * Real.cos (θ - φ)) := by
  unfold vec_obs_to_planet vsub norm2
  simp only
  congr 1
  rw [Real.cos_sub]
  linear_combination 25 * Real.sin_sq_add_cos_sq θ + 100 * Real.sin_sq_add_cos_sq φ

lemma dot_product_orbit (θ φ : ℝ) :
    dot_product (5 * Real.cos θ, 5 * Real.sin θ)
      (10 * Real.cos φ, 10 * Real.sin φ) star_pos =
      (10 - 5 * Real.cos (θ - φ)) / Real.sqrt (125 - 100 * Real.cos (θ - φ)) := by
  unfold dot_product
  rw [unit_obs_to_star_orbit, norm2_vec_obs_to_planet_orbit]
  unfold vec_obs_to_planet vsub vdiv dot
  simp only
  set N := Real.sqrt (125 - 100 * Real.cos (θ - φ)) with hN
  rw [Real.cos_sub]
  linear_combination (10 / N) * Real.sin_sq_add_cos_sq φ

lemma closest_point_orbit (θ φ : ℝ) :
    closest_point_on_los (5 * Real.cos θ, 5 * Real.sin θ)
      (10 * Real.cos φ, 10 * Real.sin φ) star_pos =
      (5 * Real.cos (θ - φ) * Real.cos φ, 5 * Real.cos (θ - φ) * Real.sin φ) := by
  unfold closest_point_on_los
  rw [proj_orbit, unit_obs_to_star_orbit]
  unfold vadd smul
  refine Prod.ext ?_ ?_ <;> simp only <;> ring

lemma perp_orbit (θ φ : ℝ) :
    perpendicular_dist (5 * Real.cos θ, 5 * Real.sin θ)
      (10 * Real.cos φ, 10 * Real.sin φ) star_pos = 5 * |Real.sin (θ - φ)| := by
  unfold perpendicular_dist
  rw [closest_point_orbit]
  unfold vsub norm2
  simp only
  have key : (5 * Real.cos θ - 5 * Real.cos (θ - φ) * Real.cos φ) ^ 2 +
      (5 * Real.sin θ - 5 * Real.cos (θ - φ) * Real.sin φ) ^ 2 =
      (5 * Real.sin (θ - φ)) ^ 2 := by
    rw [Real.cos_sub, Real.sin_sub]
    linear_combination
      (-25 * ((Real.cos θ ^ 2 + Real.sin θ ^ 2) -
        (Real.cos θ * Real.cos φ + Real.sin θ * Real.sin φ) ^ 2)) *
        Real.sin_sq_add_cos_sq φ
  rw [key, Real.sqrt_sq_eq_abs, abs_mul, abs_of_pos (by norm_num : (0 : ℝ) < 5)]

/-! ### Quartic Taylor bounds for sine and cosine, from `Real.cos_bound` and
`Real.sin_bound`, and the numeric inequalities the gate analysis needs. -/

lemma cos_ge_taylor {x : ℝ} (h0 : 0 ≤ x) (h1 : x ≤ 1) :
    1 - x ^ 2 / 2 - x ^ 4 * (5 / 96) ≤ Real.cos x := by
  have hb := Real.cos_bound (x := x) (by rw [abs_of_nonneg h0]; exact h1)
  rw [abs_of_nonneg h0] at hb
  have := abs_sub_le_iff.mp hb
  linarith [this.2]

lemma cos_le_taylor {x : ℝ} (h0 : 0 ≤ x) (h1 : x ≤ 1) :
    Real.cos x ≤ 1 - x ^ 2 / 2 + x ^ 4 * (5 / 96) := by
  have hb := Real.cos_bound (x := x) (by rw [abs_of_nonneg h0]; exact h1)
  rw [abs_of_nonneg h0] at hb
  have := abs_sub_le_iff.mp hb
  linarith [this.1]

lemma sin_ge_taylor {x : ℝ} (h0 : 0 ≤ x) (h1 : x ≤ 1) :
    x - x ^ 3 / 6 - x ^ 4 * (5 / 96) ≤ Real.sin x := by
  have hb := Real.sin_bound (x := x) (by rw [abs_of_nonneg h0]; exact h1)
  rw [abs_of_nonneg h0] at hb
  have := abs_sub_le_iff.mp hb
  linarith [this.2]

/-- `cos` of the half-degree tolerance is at least `0.999961`. -/
lemma cos_tol_lower : 0.999961 ≤ Real.cos angular_tolerance_rad := by
  have hπu := Real.pi_lt_d6
  have hπl := Real.pi_gt_d6
  unfold angular_tolerance_rad
  set x : ℝ := 0.5 * (Real.pi / 180) with hx
  have hx0 : 0 ≤ x := by rw [hx]; positivity
  have hx1 : x ≤ 0.00872665 := by rw [hx]; nlinarith
  have hx2 : x ^ 2 ≤ 0.00872665 ^ 2 := by nlinarith
  have hx4 : x ^ 4 ≤ 0.00872665 ^ 4 := by nlinarith [sq_nonneg x, sq_nonneg (x ^ 2)]
  have h := cos_ge_taylor hx0 (by nlinarith)
  nlinarith

/-- On the whole circle away from a `[−a, a]` neighbourhood of `0` (taken
modulo `2π`), `cos` is at most `cos a`. -/
lemma cos_le_of_between {a x : ℝ} (ha0 : 0 ≤ a)
    (h1 : a ≤ x) (h2 : x ≤ 2 * Real.pi - a) : Real.cos x ≤ Real.cos a := by
  rcases le_or_lt x Real.pi with hxπ | hxπ
  · exact Real.cos_le_cos_of_nonneg_of_le_pi ha0 hxπ h1
  · have h3 : Real.cos x = Real.cos (2 * Real.pi - x) := (Real.cos_two_pi_sub x).symm
    rw [h3]
    exact Real.cos_le_cos_of_nonneg_of_le_pi ha0 (by linarith) (by linarith)

/-! ### The two ways a sample stays at the baseline: misalignment, and a
normalized impact parameter beyond the hard cutoff. -/

/-- If the angular offset `ψ = θ - φ` between planet and observer satisfies
`cos ψ ≤ 0.9999`, the alignment gate fails: on the far side
(`cos ψ ≤ -0.2`) the projection reaches `1.1 * d`, and otherwise the clipped
direction cosine `(10 - 5c)/√(125 - 100c)` stays below `cos` of the
half-degree tolerance.  (The gate threshold is `cos ψ ≈ 0.999962`, so
`0.9999` clears it with a wide margin.) -/
lemma not_gate_orbit_of_cos_le {θ φ : ℝ} (h : Real.cos (θ - φ) ≤ 0.9999) :
    ¬ gate_passes (5 * Real.cos θ, 5 * Real.sin θ)
        (10 * Real.cos φ, 10 * Real.sin φ) star_pos := by
  intro hg
  obtain ⟨ha, hp1, hp2⟩ := hg
  rw [proj_orbit, dist_obs_to_star_orbit] at hp2
  set c := Real.cos (θ - φ) with hc
  have hcm : -(1 : ℝ) ≤ c := Real.neg_one_le_cos (θ - φ)
  have hc2 : -0.2 < c := by nlinarith
  have hS2 : (0 : ℝ) < 125 - 100 * c := by nlinarith
  set S := Real.sqrt (125 - 100 * c) with hS
  have hS0 : 0 < S := Real.sqrt_pos.mpr hS2
  have hSsq : S ^ 2 = 125 - 100 * c := Real.sq_sqrt (le_of_lt hS2)
  have hnum : (0 : ℝ) < 10 - 5 * c := by nlinarith
  -- the direction cosine is at most 0.999961 ≤ cos(tolerance)
  have hsq : (10 - 5 * c) ^ 2 ≤ (0.999961 * S) ^ 2 := by
    have hprod : 0 ≤ (c + 0.2) * (0.9999 - c) := by nlinarith
    nlinarith [hSsq]
  have hlin : 10 - 5 * c ≤ 0.999961 * S :=
    calc 10 - 5 * c = Real.sqrt ((10 - 5 * c) ^ 2) :=
          (Real.sqrt_sq (le_of_lt hnum)).symm
    _ ≤ Real.sqrt ((0.999961 * S) ^ 2) := Real.sqrt_le_sqrt hsq
    _ = 0.999961 * S := Real.sqrt_sq (by positivity)
  have hdp : dot_product (5 * Real.cos θ, 5 * Real.sin θ)
      (10 * Real.cos φ, 10 * Real.sin φ) star_pos ≤ 0.999961 := by
    rw [dot_product_orbit, ← hc, ← hS]
    rw [div_le_iff₀ hS0]
    linarith
  have hdp_tol : dot_product (5 * Real.cos θ, 5 * Real.sin θ)
      (10 * Real.cos φ, 10 * Real.sin φ) star_pos ≤
        Real.cos angular_tolerance_rad :=
    le_trans hdp cos_tol_lower
  -- hence the alignment angle is at least the tolerance, contradicting `ha`
  unfold alignment_angle at ha
  set dp := dot_product (5 * Real.cos θ, 5 * Real.sin θ)
      (10 * Real.cos φ, 10 * Real.sin φ) star_pos with hdpdef
  have hclip_le : max (-1) (min 1 dp) ≤ Real.cos angular_tolerance_rad := by
    apply max_le
    · linarith [cos_tol_lower]
    · exact le_trans (min_le_right 1 dp) hdp_tol
  have hclip_lb : -(1 : ℝ) ≤ max (-1) (min 1 dp) := le_max_left _ _
  have hclip_ub : max (-1) (min 1 dp) ≤ 1 := by
    apply max_le
    · norm_num
    · exact min_le_left 1 dp
  have htol0 : 0 ≤ angular_tolerance_rad := le_of_lt angular_tolerance_pos
  have harc0 : 0 ≤ Real.arccos (max (-1) (min 1 dp)) := Real.arccos_nonneg _
  have harcπ : Real.arccos (max (-1) (min 1 dp)) ≤ Real.pi := Real.arccos_le_pi _
  have hcontr : Real.cos angular_tolerance_rad < max (-1) (min 1 dp) := by
    have := Real.strictAntiOn_cos ⟨harc0, harcπ⟩
      ⟨htol0, angular_tolerance_le_pi⟩ ha
    rwa [Real.cos_arccos hclip_lb hclip_ub] at this
  linarith

/-- Baseline sample from misalignment, for a planet on the orbit circle. -/
lemma mag_orbit_eq_one_of_cos_le {θ φ : ℝ} (mr : ℝ)
    (h : Real.cos (θ - φ) ≤ 0.9999) :
    calculate_magnification (5 * Real.cos θ, 5 * Real.sin θ)
      (10 * Real.cos φ, 10 * Real.sin φ) star_pos mr = 1 :=
  mag_eq_one_of_not_gate _ _ _ _ (not_gate_orbit_of_cos_le h)

/-- Baseline sample from the hard cutoff: when the perpendicular distance
`5·|sin ψ|` exceeds `3` Einstein-proxy radii, `u > 3` and the magnification
is forced back to `1.0` (src/main.py lines 115-116) even if the gate passes. -/
lemma mag_orbit_eq_one_of_sin_large {θ φ mr : ℝ} (hmr : 0 < mr)
    (h : 3 * einstein_radius_visual_proxy mr < 5 * |Real.sin (θ - φ)|) :
    calculate_magnification (5 * Real.cos θ, 5 * Real.sin θ)
      (10 * Real.cos φ, 10 * Real.sin φ) star_pos mr = 1 := by
  apply mag_eq_one_of_u_gt3
  have hprox := proxy_pos hmr
  have hu : 3 < u_raw (5 * Real.cos θ, 5 * Real.sin θ)
      (10 * Real.cos φ, 10 * Real.sin φ) star_pos mr := by
    unfold u_raw
    rw [perp_orbit, lt_div_iff₀ hprox]
    linarith
  unfold u_floored
  rw [if_neg (not_lt.mpr (by linarith))]
  exact hu

/-! ### The point-lens formula `A(u)` and the calibration constants -/

lemma sqrt_u_sq_add_four_pos (u : ℝ) : 0 < Real.sqrt (u ^ 2 + 4) :=
  Real.sqrt_pos.mpr (by positivity)

lemma point_lens_A_gt_one {u : ℝ} (hu : 0 < u) : 1 < point_lens_A u := by
  unfold point_lens_A
  have hsp := sqrt_u_sq_add_four_pos u
  have hD : 0 < u * Real.sqrt (u ^ 2 + 4) := mul_pos hu hsp
  rw [lt_div_iff₀ hD]
  have hs : Real.sqrt (u ^ 2 + 4) ^ 2 = u ^ 2 + 4 :=
    Real.sq_sqrt (by positivity)
  nlinarith [hs, hD, mul_pos hu hsp]

lemma base_u_mag_eq : base_u_mag = point_lens_A 0.005 := by
  unfold base_u_mag point_lens_A
  norm_num

lemma base_u_mag_gt_one : 1 < base_u_mag := by
  rw [base_u_mag_eq]
  exact point_lens_A_gt_one (by norm_num)

lemma scaling_factor_pos : 0 < scaling_factor := by
  unfold scaling_factor target_gain_for_jupiter
  have hb := base_u_mag_gt_one
  rw [show ((0.001 : ℝ) / 0.001) = 1 by norm_num, div_one]
  exact div_pos (by norm_num) (by norm_num; linarith)

/-! ### Access to the sampled sequences -/

lemma positions_length (P : ℕ) : (positions P).length = P := by
  unfold positions
  rw [List.length_map, List.length_range]

lemma all_magnifications_length (P : ℕ) (mr d : ℝ) :
    (all_magnifications P mr d).length = P := by
  unfold all_magnifications
  rw [List.length_map, List.length_range]

lemma positions_getD {P t : ℕ} (h : t < P) :
    (positions P).getD t (0, 0) = planet_pos_at P t := by
  unfold positions
  rw [List.getD_eq_getElem?_getD, List.getElem?_map, List.getElem?_range h]
  rfl

lemma all_magnifications_getD {P t : ℕ} (mr d : ℝ) (h : t < P) :
    (all_magnifications P mr d).getD t 0 =
      calculate_magnification (planet_pos_at P t) (observer_pos d) star_pos mr := by
  unfold all_magnifications
  rw [List.getD_eq_getElem?_getD, List.getElem?_map, List.getElem?_range h]
  rfl

lemma observer_pos_eq (d : ℝ) :
    observer_pos d = (10 * Real.cos (d * (Real.pi / 180)),
      10 * Real.sin (d * (Real.pi / 180))) := by
  unfold observer_pos R_OBSERVER_DIST
  norm_num

lemma planet_pos_at_eq (P t : ℕ) :
    planet_pos_at P t = (5 * Real.cos (2 * Real.pi * t / P),
      5 * Real.sin (2 * Real.pi * t / P)) := by
  unfold planet_pos_at R_ORBIT
  norm_num

/-! ### Exact value at the aligned sample of the concrete scenario -/

/-- At the exactly aligned sample — planet `(0, 5)`, observer `(0, 10)`,
star at the origin, mass ratio `0.0001` — the gate passes, the floor
`u = 0.005` engages, the raw lens value cancels against `base_u_mag`, and
the magnification is exactly `1 + 0.15 · (0.0001/0.001) = 1.015`. -/
lemma norm2_obs_ex : norm2 (vec_obs_to_star (0, 10) (0, 0)) = 10 := by
  unfold vec_obs_to_star vsub norm2
  simp only
  rw [show ((0 : ℝ) - 0) ^ 2 + ((0 : ℝ) - 10) ^ 2 = 10 ^ 2 by norm_num,
    Real.sqrt_sq (by norm_num)]

lemma unit_obs_ex : unit_obs_to_star (0, 10) (0, 0) = (0, -1) := by
  unfold unit_obs_to_star
  rw [norm2_obs_ex]
  unfold vec_obs_to_star vsub vdiv
  norm_num

lemma dist_obs_ex : dist_obs_to_star (0, 10) (0, 0) = 10 := by
  unfold dist_obs_to_star
  exact norm2_obs_ex

lemma mag_aligned_value :
    calculate_magnification (0, 5) (0, 10) (0, 0) 0.0001 = 1.015 := by
  have hunit := unit_obs_ex
  have hdist := dist_obs_ex
  have hproj : proj_on_los_length (0, 5) (0, 10) (0, 0) = 5 := by
    unfold proj_on_los_length
    rw [hunit]
    unfold vec_obs_to_planet vsub dot
    norm_num
  have hnormp : norm2 (vec_obs_to_planet (0, 5) (0, 10)) = 5 := by
    unfold vec_obs_to_planet vsub norm2
    simp only
    rw [show ((0 : ℝ) - 0) ^ 2 + ((5 : ℝ) - 10) ^ 2 = 5 ^ 2 by norm_num,
      Real.sqrt_sq (by norm_num)]
  have hdp : dot_product (0, 5) (0, 10) (0, 0) = 1 := by
    unfold dot_product
    rw [hunit, hnormp]
    unfold vec_obs_to_planet vsub vdiv dot
    norm_num
  have halign : alignment_angle (0, 5) (0, 10) (0, 0) = 0 := by
    unfold alignment_angle
    rw [hdp]
    norm_num
  have hgate : gate_passes (0, 5) (0, 10) (0, 0) := by
    refine ⟨?_, ?_, ?_⟩
    · rw [halign]
      exact angular_tolerance_pos
    · rw [hproj, hdist]
      norm_num
    · rw [hproj, hdist]
      norm_num
  have hclosest : closest_point_on_los (0, 5) (0, 10) (0, 0) = (0, 5) := by
    unfold closest_point_on_los
    rw [hproj, hunit]
    unfold vadd smul
    norm_num
  have hperp : perpendicular_dist (0, 5) (0, 10) (0, 0) = 0 := by
    unfold perpendicular_dist
    rw [hclosest]
    unfold vsub norm2
    norm_num
  have hu : u_raw (0, 5) (0, 10) (0, 0) 0.0001 = 0 := by
    unfold u_raw
    rw [hperp, zero_div]
  have huf : u_floored (0, 5) (0, 10) (0, 0) 0.0001 = 0.005 := by
    unfold u_floored
    rw [hu]
    norm_num
  have hne : base_u_mag - 1.0 ≠ 0 := by
    have := base_u_mag_gt_one
    intro hh
    norm_num at hh
    linarith
  simp only [calculate_magnification]
  rw [if_neg (not_le.mpr (proxy_pos (by norm_num))), if_neg (not_not_intro hgate), huf]
  rw [show point_lens_A 0.005 = base_u_mag from base_u_mag_eq.symm]
  rw [if_neg (by norm_num : ¬((0.005 : ℝ) > 3.0))]
  have hcalc : (1.0 : ℝ) + (base_u_mag - 1.0) * scaling_factor * (0.0001 / 0.001)
      = 1.015 := by
    unfold scaling_factor target_gain_for_jupiter
    field_simp
    ring_nf
  rw [hcalc]
  norm_num

/-! ### Numeric bounds for the concrete 400-step scenarios -/

lemma cos_pi_div_200_le : Real.cos (Real.pi / 200) ≤ 0.99988 := by
  have hπl := Real.pi_gt_d6
  have hπu := Real.pi_lt_d6
  set x : ℝ := Real.pi / 200 with hx
  have hx0 : 0 ≤ x := by rw [hx]; positivity
  have hxl : 0.0157079 ≤ x := by rw [hx]; nlinarith
  have hxu : x ≤ 0.0157080 := by rw [hx]; nlinarith
  have h := cos_le_taylor hx0 (by linarith)
  have hx2 : 0.0157079 ^ 2 ≤ x ^ 2 := by nlinarith
  have hxu2 : x ^ 2 ≤ 0.0157080 ^ 2 := by nlinarith
  have hx4 : x ^ 4 ≤ 0.0157080 ^ 4 := by nlinarith [hxu2, sq_nonneg x]
  nlinarith

lemma cos_3pi_div_400_le : Real.cos (3 * Real.pi / 400) ≤ 0.99973 := by
  have hπl := Real.pi_gt_d6
  have hπu := Real.pi_lt_d6
  set x : ℝ := 3 * Real.pi / 400 with hx
  have hx0 : 0 ≤ x := by rw [hx]; positivity
  have hxl : 0.0235619 ≤ x := by rw [hx]; nlinarith
  have hxu : x ≤ 0.0235620 := by rw [hx]; nlinarith
  have h := cos_le_taylor hx0 (by linarith)
  have hx2 : 0.0235619 ^ 2 ≤ x ^ 2 := by nlinarith
  have hxu2 : x ^ 2 ≤ 0.0235620 ^ 2 := by nlinarith
  have hx4 : x ^ 4 ≤ 0.0235620 ^ 4 := by nlinarith [hxu2, sq_nonneg x]
  nlinarith

lemma sin_pi_div_400_ge : 0.00785 ≤ Real.sin (Real.pi / 400) := by
  have hπl := Real.pi_gt_d6
  have hπu := Real.pi_lt_d6
  set x : ℝ := Real.pi / 400 with hx
  have hx0 : 0 ≤ x := by rw [hx]; positivity
  have hxl : 0.0078539 ≤ x := by rw [hx]; nlinarith
  have hxu : x ≤ 0.0078540 := by rw [hx]; nlinarith
  have h := sin_ge_taylor hx0 (by linarith)
  have hxu2 : x ^ 2 ≤ 0.0078540 ^ 2 := by nlinarith
  have hx3 : x ^ 3 ≤ 0.0078540 ^ 3 := by nlinarith [hxu2, sq_nonneg x]
  have hx4 : x ^ 4 ≤ 0.0078540 ^ 4 := by nlinarith [hxu2, sq_nonneg x]
  nlinarith

/-- Off the aligned step of the `orbital_period = 400`, `observer_angle = 90`
scenario, the angular offset from the observer direction is at least one
step `π/200`, so its cosine stays below the gate threshold. -/
lemma orbit400_offangle_cos_le {t : ℕ} (ht : t < 400) (h100 : t ≠ 100) :
    Real.cos (2 * Real.pi * t / ((400 : ℕ) : ℝ) - 90 * (Real.pi / 180)) ≤ 0.9999 := by
  have heq : 2 * Real.pi * (t : ℝ) / ((400 : ℕ) : ℝ) - 90 * (Real.pi / 180)
      = ((t : ℝ) - 100) * (Real.pi / 200) := by
    push_cast
    ring
  rw [heq]
  have htR : (t : ℝ) ≤ 399 := by exact_mod_cast Nat.lt_succ_iff.mp ht
  have ht0 : (0 : ℝ) ≤ (t : ℝ) := Nat.cast_nonneg t
  have hk1 : 1 ≤ |(t : ℝ) - 100| := by
    rcases lt_or_gt_of_ne h100 with hlt | hgt
    · have h99 : (t : ℝ) ≤ 99 := by exact_mod_cast Nat.lt_succ_iff.mp hlt
      exact le_abs.mpr (Or.inr (by linarith))
    · have h101 : (101 : ℝ) ≤ (t : ℝ) := by exact_mod_cast hgt
      exact le_abs.mpr (Or.inl (by linarith))
  have hk2 : |(t : ℝ) - 100| ≤ 299 := abs_le.mpr ⟨by linarith, by linarith⟩
  have habs : Real.cos (((t : ℝ) - 100) * (Real.pi / 200))
      = Real.cos (|(t : ℝ) - 100| * (Real.pi / 200)) := by
    rcases abs_cases ((t : ℝ) - 100) with ⟨he, _⟩ | ⟨he, _⟩
    · rw [he]
    · rw [he, neg_mul, Real.cos_neg]
  rw [habs]
  have hb1 : Real.pi / 200 ≤ |(t : ℝ) - 100| * (Real.pi / 200) :=
    le_mul_of_one_le_left (by positivity) hk1
  have hb2 : |(t : ℝ) - 100| * (Real.pi / 200) ≤ 2 * Real.pi - Real.pi / 200 := by
    have h399 : |(t : ℝ) - 100| * (Real.pi / 200) ≤ 399 * (Real.pi / 200) :=
      mul_le_mul_of_nonneg_right (le_trans hk2 (by norm_num)) (by positivity)
    have : (399 : ℝ) * (Real.pi / 200) = 2 * Real.pi - Real.pi / 200 := by ring
    linarith
  have hcos := cos_le_of_between (by positivity) hb1 hb2
  have := cos_pi_div_200_le
  linarith

/-! ### The concrete scenario `orbital_period = 400`, `mass_ratio = 0.0001`,
`observer_angle = 90` -/

/-- Every sample of the concrete scenario other than `t = 100` is baseline. -/
lemma mags400_off (t : ℕ) (ht : t < 400) (h100 : t ≠ 100) :
    (all_magnifications 400 0.0001 90).getD t 0 = 1 := by
  rw [all_magnifications_getD 0.0001 90 ht, planet_pos_at_eq, observer_pos_eq]
  exact mag_orbit_eq_one_of_cos_le 0.0001 (orbit400_offangle_cos_le ht h100)

/-- The sample at `t = 100` of the concrete scenario is exactly `1.015`:
the planet stands at angle `90°`, i.e. at `(0, R_ORBIT)`, exactly between
the observer at `(0, R_OBS)` and the star. -/
lemma mags400_at_100 :
    (all_magnifications 400 0.0001 90).getD 100 0 = 1.015 := by
  rw [all_magnifications_getD 0.0001 90 (by norm_num), planet_pos_at_eq,
    observer_pos_eq]
  have hθ : 2 * Real.pi * ((100 : ℕ) : ℝ) / ((400 : ℕ) : ℝ) = Real.pi / 2 := by
    push_cast
    ring
  have hφ : (90 : ℝ) * (Real.pi / 180) = Real.pi / 2 := by ring
  rw [hθ, hφ, Real.cos_pi_div_two, Real.sin_pi_div_two]
  have hsp : star_pos = ((0 : ℝ), (0 : ℝ)) := rfl
  have h5 : ((5 : ℝ) * 0, (5 : ℝ) * 1) = ((0 : ℝ), (5 : ℝ)) := by norm_num
  have h10 : ((10 : ℝ) * 0, (10 : ℝ) * 1) = ((0 : ℝ), (10 : ℝ)) := by norm_num
  rw [hsp, h5, h10]
  exact mag_aligned_value

/-! ## Claim C1 -/

/-- C1, counterexample.  In the concrete scenario `orbital_period = 400`,
`mass_ratio = 0.0001`, `observer_angle = 90°`, the claim places the peak of
the light curve near the time step where the planet's angular position is
`270°`, i.e. `t = 300`, planet at `(0, -R_ORBIT)`.  In fact the samples at
`t = 299, 300, 301` are all exactly baseline `1.0` — at `270°` the planet is
on the far side of the star, where the projection check
`proj < 1.1 * dist` of the gate fails (`proj = 15 > 11`) — while the sample
at `t = 100` (angular position `90°`, planet at `(0, +R_ORBIT)`, between
observer and star) is `1.015 > 1`.  The peak is therefore at `90°`, not
`270°`. -/
theorem C1_counterexample :
    (all_magnifications 400 0.0001 90).getD 300 0 = 1 ∧
    (all_magnifications 400 0.0001 90).getD 299 0 = 1 ∧
    (all_magnifications 400 0.0001 90).getD 301 0 = 1 ∧
    (all_magnifications 400 0.0001 90).getD 100 0 = 1.015 :=
  ⟨mags400_off 300 (by norm_num) (by norm_num),
   mags400_off 299 (by norm_num) (by norm_num),
   mags400_off 301 (by norm_num) (by norm_num),
   mags400_at_100⟩

/-- C1, amended.  For the configuration `orbital_period = 400`,
`mass_ratio = 0.0001`, `observer_angle = 90°`, the produced sequence of 400
magnification samples equals the baseline `1.0` at every time step except a
single elevated sample `1.015` at `t = 100`, where the planet's angular
position is `90°`, i.e. planet position `(0, +R_ORBIT)` — the alignment
point lies between the observer at `(0, +R_OBS)` and the star, on the
observer's side, not on the opposite side of the star. -/
theorem C1_theorem (t : ℕ) (ht : t < 400) :
    (all_magnifications 400 0.0001 90).getD t 0 =
      if t = 100 then 1.015 else 1 := by
  by_cases h100 : t = 100
  · subst h100
    rw [if_pos rfl]
    exact mags400_at_100
  · rw [if_neg h100]
    exact mags400_off t ht h100

/-- C1, witness: the amended theorem applied at the concrete step `t = 100`. -/
theorem C1_witness :
    (100 : ℕ) < 400 ∧
    (all_magnifications 400 0.0001 90).getD 100 0 =
      if (100 : ℕ) = 100 then 1.015 else 1 :=
  ⟨by norm_num, C1_theorem 100 (by norm_num)⟩

/-! ## Claim C3 -/

/-- A point on the far side of the star seen from the example observer:
the projection on the line of sight is `15`, past the star. -/
lemma proj_far_ex : proj_on_los_length (0, -5) (0, 10) (0, 0) = 15 := by
  unfold proj_on_los_length
  rw [unit_obs_ex]
  unfold vec_obs_to_planet vsub dot
  norm_num

lemma not_gate_far_ex : ¬ gate_passes (0, -5) (0, 10) (0, 0) := by
  rintro ⟨-, -, h3⟩
  rw [proj_far_ex, dist_obs_ex] at h3
  norm_num at h3

/-- C3.  The alignment gate passes only if (a) the angle between the
observer-to-star and observer-to-planet directions is below the tolerance
`angular_tolerance_rad`, and (b) the planet's projection on the line of
sight is positive and at most `1.1 ×` the observer-star distance (the code's
permissive margin; the code actually demands the narrower window
`(0.1·d, 1.1·d)`, which lies inside `(0, 1.1·d]`).  Whenever the gate
fails the function returns exactly `1.0`, regardless of `u`. -/
theorem C3_theorem (p o s : Vec2) (mr : ℝ) :
    (gate_passes p o s →
      alignment_angle p o s < angular_tolerance_rad ∧
      0 < proj_on_los_length p o s ∧
      proj_on_los_length p o s ≤ 1.1 * dist_obs_to_star o s) ∧
    (¬ gate_passes p o s → calculate_magnification p o s mr = 1) := by
  constructor
  · rintro ⟨h1, h2, h3⟩
    have hd : 0 ≤ dist_obs_to_star o s := by
      unfold dist_obs_to_star
      exact norm2_nonneg _
    exact ⟨h1, by linarith, le_of_lt h3⟩
  · exact mag_eq_one_of_not_gate p o s mr

/-- C3, witness: at planet `(0, -5)` (far side of the star) the gate fails
and the magnification is exactly the baseline. -/
theorem C3_witness :
    ¬ gate_passes (0, -5) (0, 10) (0, 0) ∧
    calculate_magnification (0, -5) (0, 10) (0, 0) 0.0001 = 1 :=
  ⟨not_gate_far_ex,
   (C3_theorem (0, -5) (0, 10) (0, 0) 0.0001).2 not_gate_far_ex⟩

/-! ## Claim C4 -/

/-- C4, counterexample.  With `mass_ratio = 0` the run does not fail fast:
sampling proceeds and produces a full sequence of baseline values (here with
`orbital_period = 4` for concreteness).  No `InvalidConfiguration` error
exists anywhere in src/main.py; the guard at line 53 silently returns `1.0`. -/
theorem C4_counterexample :
    all_magnifications 4 0 0 = List.replicate 4 1 := by
  have hz : ∀ p o s : Vec2, calculate_magnification p o s 0 = 1 := fun p o s =>
    mag_eq_one_of_mr_nonpos p o s le_rfl
  unfold all_magnifications
  rw [show List.range 4 = [0, 1, 2, 3] by decide]
  simp [hz, List.replicate]

/-- C4, amended.  A zero or negative mass ratio is not rejected: the
Einstein-radius proxy guard (src/main.py line 53) makes every call of the
magnification function return the baseline `1.0`, producing no NaN/Inf in
the output but also raising no `InvalidConfiguration`; input validation is
left entirely to the UI sliders (`orbital_period ≥ 200`,
`mass_ratio ≥ 0.000001`). -/
theorem C4_theorem (p o s : Vec2) (mr : ℝ) (h : mr ≤ 0) :
    calculate_magnification p o s mr = 1 :=
  mag_eq_one_of_mr_nonpos p o s h

/-- C4, witness: the amended theorem at mass ratio `0`. -/
theorem C4_witness :
    (0 : ℝ) ≤ 0 ∧ calculate_magnification (5, 0) (0, 10) (0, 0) 0 = 1 :=
  ⟨le_rfl, C4_theorem (5, 0) (0, 10) (0, 0) 0 le_rfl⟩

/-! ## Claim C5 -/

/-- C5, counterexample.  With `observer_position = star_position = (0, 0)`
the function does not fail with `DegenerateGeometry` (no such error exists
in src/main.py): the zero-length line of sight is silently divided by zero
— `nan` in the source, whose comparisons are all false — and the function
returns the baseline `1.0`. -/
theorem C5_counterexample :
    calculate_magnification (5, 0) (0, 0) (0, 0) 0.0001 = 1 :=
  mag_obs_eq_star (5, 0) (0, 0) 0.0001

/-- C5, amended.  The function has no degenerate-geometry guard: for every
planet position and mass ratio, when the observer coincides with the star
the normalization of the zero-length line-of-sight vector divides by zero
(producing `nan` in the source), the alignment comparison fails, and the
function returns the baseline `1.0` instead of raising an error. -/
theorem C5_theorem (p o : Vec2) (mr : ℝ) :
    calculate_magnification p o o mr = 1 :=
  mag_obs_eq_star p o mr

/-! ## Claim C6 -/

/-- C6.  Every sample of every produced magnification sequence is at least
the baseline `1.0`: each return path of the function ends in `1.0` itself or
in `max(1.0, ·)` (src/main.py lines 53, 89, 118).  This holds for every
configuration, valid or not. -/
theorem C6_theorem (P : ℕ) (mr d : ℝ) :
    ∀ m ∈ all_magnifications P mr d, 1 ≤ m := by
  intro m hm
  unfold all_magnifications at hm
  obtain ⟨t, -, rfl⟩ := List.mem_map.mp hm
  exact mag_ge_one _ _ _ _

/-- C6, witness: the single sample of a one-step run is at least `1`. -/
theorem C6_witness :
    calculate_magnification (planet_pos_at 1 0) (observer_pos 0) star_pos 0.001 ∈
      all_magnifications 1 0.001 0 ∧
    1 ≤ calculate_magnification (planet_pos_at 1 0) (observer_pos 0) star_pos 0.001 := by
  have hmem : calculate_magnification (planet_pos_at 1 0) (observer_pos 0)
      star_pos 0.001 ∈ all_magnifications 1 0.001 0 := by
    unfold all_magnifications
    rw [show List.range 1 = [0] by decide]
    simp
  exact ⟨hmem, C6_theorem 1 0.001 0 _ hmem⟩

/-! ## Claim C7 -/

/-- C7.  Whenever the normalized impact parameter (after the epsilon floor)
exceeds the cutoff `3.0`, the function returns exactly `1.0` — when the gate
passes this is the hard cutoff of src/main.py lines 115-116, and when the
gate fails the result is `1.0` anyway. -/
theorem C7_theorem (p o s : Vec2) (mr : ℝ) (h : 3 < u_floored p o s mr) :
    calculate_magnification p o s mr = 1 :=
  mag_eq_one_of_u_gt3 p o s mr h

lemma proj_side_ex : proj_on_los_length (5, 0) (0, 10) (0, 0) = 10 := by
  unfold proj_on_los_length
  rw [unit_obs_ex]
  unfold vec_obs_to_planet vsub dot
  norm_num

lemma perp_side_ex : perpendicular_dist (5, 0) (0, 10) (0, 0) = 5 := by
  have hclosest : closest_point_on_los (5, 0) (0, 10) (0, 0) = (0, 0) := by
    unfold closest_point_on_los
    rw [proj_side_ex, unit_obs_ex]
    unfold vadd smul
    norm_num
  unfold perpendicular_dist
  rw [hclosest]
  unfold vsub norm2
  simp only
  rw [show ((5 : ℝ) - 0) ^ 2 + ((0 : ℝ) - 0) ^ 2 = 5 ^ 2 by norm_num,
    Real.sqrt_sq (by norm_num)]

lemma u_floored_side_ex : u_floored (5, 0) (0, 10) (0, 0) 0.00025 = 2000 := by
  have hproxy : einstein_radius_visual_proxy 0.00025 = 0.0025 := by
    unfold einstein_radius_visual_proxy
    rw [show (0.00025 : ℝ) / 0.001 = ((1 : ℝ) / 2) ^ 2 by norm_num,
      Real.sqrt_sq (by norm_num)]
    norm_num
  unfold u_floored u_raw
  rw [perp_side_ex, hproxy]
  norm_num

/-- C7, witness: at planet `(5, 0)` with mass ratio `0.00025` the floored
`u` is `2000 > 3` and the magnification is exactly `1.0`. -/
theorem C7_witness :
    3 < u_floored (5, 0) (0, 10) (0, 0) 0.00025 ∧
    calculate_magnification (5, 0) (0, 10) (0, 0) 0.00025 = 1 := by
  have h3 : 3 < u_floored (5, 0) (0, 10) (0, 0) 0.00025 := by
    rw [u_floored_side_ex]
    norm_num
  exact ⟨h3, C7_theorem (5, 0) (0, 10) (0, 0) 0.00025 h3⟩

/-! ## Claim C9 -/

/-- C9.  For every finite input with positive mass ratio the magnification
function is total: it returns a real value, and that value is at least the
baseline `1.0`.  In particular at `planet_position = observer_position`,
where the observer→planet direction has length zero and its normalization
divides by zero (`nan` in the source), the gate comparison fails and the
returned value is exactly `1.0` — no exception, no NaN in the output. -/
theorem C9_theorem (p o s : Vec2) (mr : ℝ) (h : 0 < mr) :
    1 ≤ calculate_magnification p o s mr ∧
    (p = o → calculate_magnification p o s mr = 1) := by
  refine ⟨mag_ge_one p o s mr, ?_⟩
  rintro rfl
  exact mag_planet_eq_obs p s mr

/-- C9, witness: the theorem at the coincident point `(3, 4)`. -/
theorem C9_witness :
    (0 : ℝ) < 0.001 ∧
    (1 ≤ calculate_magnification ((3 : ℝ), (4 : ℝ)) (3, 4) (0, 0) 0.001 ∧
      (((3 : ℝ), (4 : ℝ)) = ((3 : ℝ), (4 : ℝ)) →
        calculate_magnification ((3 : ℝ), (4 : ℝ)) (3, 4) (0, 0) 0.001 = 1)) :=
  ⟨by norm_num, C9_theorem (3, 4) (3, 4) (0, 0) 0.001 (by norm_num)⟩

/-! ## Claim C10 -/

/-- C10.  The orbit sampler produces, for each time step `t < orbital_period`,
exactly the position `(R_ORBIT·cos(2π·t/period), R_ORBIT·sin(2π·t/period))`;
every sample lies on the circle of radius `R_ORBIT` centred on the star; and
the positions and magnifications sequences both have length exactly
`orbital_period` and are aligned index for index. -/
theorem C10_theorem (P : ℕ) (mr d : ℝ) (t : ℕ) (ht : t < P) :
    (positions P).length = P ∧
    (all_magnifications P mr d).length = P ∧
    (positions P).getD t (0, 0) =
      (R_ORBIT * Real.cos (2 * Real.pi * t / P),
       R_ORBIT * Real.sin (2 * Real.pi * t / P)) ∧
    norm2 (vsub ((positions P).getD t (0, 0)) star_pos) = R_ORBIT ∧
    (all_magnifications P mr d).getD t 0 =
      calculate_magnification ((positions P).getD t (0, 0)) (observer_pos d)
        star_pos mr := by
  refine ⟨positions_length P, all_magnifications_length P mr d, ?_, ?_, ?_⟩
  · rw [positions_getD ht]
    rfl
  · rw [positions_getD ht, planet_pos_at_eq]
    unfold vsub star_pos norm2
    simp only
    have key : (5 * Real.cos (2 * Real.pi * t / P) - 0) ^ 2 +
        (5 * Real.sin (2 * Real.pi * t / P) - 0) ^ 2 = 5 ^ 2 := by
      linear_combination 25 * Real.sin_sq_add_cos_sq (2 * Real.pi * t / P)
    rw [key, Real.sqrt_sq (by norm_num)]
    unfold R_ORBIT
    norm_num
  · rw [positions_getD ht, all_magnifications_getD mr d ht]

/-- C10, witness: the theorem at `orbital_period = 2`, `t = 1`. -/
theorem C10_witness :
    (1 : ℕ) < 2 ∧
    ((positions 2).length = 2 ∧
     (all_magnifications 2 0.001 0).length = 2 ∧
     (positions 2).getD 1 (0, 0) =
       (R_ORBIT * Real.cos (2 * Real.pi * (1 : ℕ) / (2 : ℕ)),
        R_ORBIT * Real.sin (2 * Real.pi * (1 : ℕ) / (2 : ℕ))) ∧
     norm2 (vsub ((positions 2).getD 1 (0, 0)) star_pos) = R_ORBIT ∧
     (all_magnifications 2 0.001 0).getD 1 0 =
       calculate_magnification ((positions 2).getD 1 (0, 0)) (observer_pos 0)
         star_pos 0.001) :=
  ⟨by norm_num, C10_theorem 2 0.001 0 1 (by norm_num)⟩

/-! ## Claim C2 -/

lemma proxy_00001_le : einstein_radius_visual_proxy 0.0001 ≤ 0.0015815 := by
  unfold einstein_radius_visual_proxy
  have h1 : Real.sqrt (0.0001 / 0.001) ≤ 0.3163 := by
    rw [show (0.0001 : ℝ) / 0.001 = 0.1 by norm_num]
    calc Real.sqrt 0.1 ≤ Real.sqrt (0.3163 ^ 2) := Real.sqrt_le_sqrt (by norm_num)
    _ = 0.3163 := Real.sqrt_sq (by norm_num)
  nlinarith [Real.sqrt_nonneg ((0.0001 : ℝ) / 0.001)]

/-- In the configuration `orbital_period = 400`, `mass_ratio = 0.0001`,
`observer_angle = 0.45°`, the two samples adjacent to exact alignment sit
half a step (`π/400`) away; their perpendicular distance `5·sin(π/400)` is
more than `3` proxy radii, so the hard cutoff returns baseline. -/
lemma orbit400_near_sample (t : ℕ) (h01 : t = 0 ∨ t = 1) :
    calculate_magnification (planet_pos_at 400 t) (observer_pos 0.45) star_pos
      0.0001 = 1 := by
  rw [planet_pos_at_eq, observer_pos_eq]
  apply mag_orbit_eq_one_of_sin_large (by norm_num)
  have hs := sin_pi_div_400_ge
  have hpr := proxy_00001_le
  have hsin0 : 0 ≤ Real.sin (Real.pi / 400) :=
    Real.sin_nonneg_of_nonneg_of_le_pi (by positivity)
      (by nlinarith [Real.pi_pos])
  rcases h01 with rfl | rfl
  · have heq : 2 * Real.pi * ((0 : ℕ) : ℝ) / ((400 : ℕ) : ℝ) -
        0.45 * (Real.pi / 180) = -(Real.pi / 400) := by
      push_cast
      ring
    rw [heq, Real.sin_neg, abs_neg, abs_of_nonneg hsin0]
    nlinarith
  · have heq : 2 * Real.pi * ((1 : ℕ) : ℝ) / ((400 : ℕ) : ℝ) -
        0.45 * (Real.pi / 180) = Real.pi / 400 := by
      push_cast
      ring
    rw [heq, abs_of_nonneg hsin0]
    nlinarith

/-- Away from the two near-aligned samples, the angular offset is at least
`3π/400` and the gate fails. -/
lemma orbit400_gap_cos_le {t : ℕ} (ht2 : 2 ≤ t) (ht : t < 400) :
    Real.cos (2 * Real.pi * t / ((400 : ℕ) : ℝ) - 0.45 * (Real.pi / 180)) ≤
      0.9999 := by
  have heq : 2 * Real.pi * (t : ℝ) / ((400 : ℕ) : ℝ) - 0.45 * (Real.pi / 180)
      = (2 * (t : ℝ) - 1) * (Real.pi / 400) := by
    push_cast
    ring
  rw [heq]
  have hk1 : (3 : ℝ) ≤ 2 * (t : ℝ) - 1 := by
    have h2 : (2 : ℝ) ≤ (t : ℝ) := by exact_mod_cast ht2
    linarith
  have hk2 : 2 * (t : ℝ) - 1 ≤ 797 := by
    have h399 : (t : ℝ) ≤ 399 := by exact_mod_cast Nat.lt_succ_iff.mp ht
    linarith
  have hp : (0 : ℝ) ≤ Real.pi / 400 := by positivity
  have hb1 : 3 * Real.pi / 400 ≤ (2 * (t : ℝ) - 1) * (Real.pi / 400) := by
    calc 3 * Real.pi / 400 = 3 * (Real.pi / 400) := by ring
    _ ≤ (2 * (t : ℝ) - 1) * (Real.pi / 400) := mul_le_mul_of_nonneg_right hk1 hp
  have hb2 : (2 * (t : ℝ) - 1) * (Real.pi / 400) ≤
      2 * Real.pi - 3 * Real.pi / 400 := by
    have h797 : (2 * (t : ℝ) - 1) * (Real.pi / 400) ≤ 797 * (Real.pi / 400) :=
      mul_le_mul_of_nonneg_right hk2 hp
    have hid : (797 : ℝ) * (Real.pi / 400) = 2 * Real.pi - 3 * Real.pi / 400 := by
      ring
    linarith
  have hcos := cos_le_of_between (by positivity) hb1 hb2
  have := cos_3pi_div_400_le
  linarith

/-- C2, counterexample.  The valid configuration `orbital_period = 400`,
`mass_ratio = 0.0001`, `observer_angle = 0.45°` produces the constant
baseline sequence: the alignment point falls exactly between two discrete
samples, the two nearest samples are cut off (`u > 3`), and every other
sample is misaligned.  The sequence contains zero elevated runs, not
exactly one. -/
theorem C2_counterexample :
    all_magnifications 400 0.0001 0.45 = List.replicate 400 1 := by
  refine List.eq_replicate_iff.mpr ⟨all_magnifications_length 400 0.0001 0.45, ?_⟩
  intro b hb
  unfold all_magnifications at hb
  obtain ⟨t, htmem, rfl⟩ := List.mem_map.mp hb
  have ht : t < 400 := List.mem_range.mp htmem
  rcases Nat.lt_or_ge t 2 with h2 | h2
  · interval_cases t
    · exact orbit400_near_sample 0 (Or.inl rfl)
    · exact orbit400_near_sample 1 (Or.inr rfl)
  · rw [planet_pos_at_eq, observer_pos_eq]
    exact mag_orbit_eq_one_of_cos_le 0.0001 (orbit400_gap_cos_le h2 ht)

/-- C2, amended.  For every configuration, the elevated samples (those with
magnification above baseline) all lie in one narrow angular window around
exact alignment with the observer: if sample `t` is elevated then the cosine
of the planet's angular offset from the observer direction exceeds `0.9999`
(the gate threshold is `≈ 0.999962`, an offset under `0.5°`).  There is
therefore no second elevated region elsewhere in the orbit; but the window
may contain no sample at all (zero elevated runs — the counterexample), and
when it straddles time step `0` the single run wraps around the ends of the
index range. -/
theorem C2_theorem (P : ℕ) (mr d : ℝ) (t : ℕ) (ht : t < P)
    (helev : 1 < (all_magnifications P mr d).getD t 0) :
    0.9999 < Real.cos (2 * Real.pi * t / P - d * (Real.pi / 180)) := by
  by_contra hc
  rw [not_lt] at hc
  rw [all_magnifications_getD mr d ht, planet_pos_at_eq, observer_pos_eq,
    mag_orbit_eq_one_of_cos_le mr hc] at helev
  exact lt_irrefl 1 helev

/-- C2, witness: the amended theorem at the elevated sample `t = 100` of the
90° scenario, where the offset is `0` and its cosine is `1`. -/
theorem C2_witness :
    (100 : ℕ) < 400 ∧
    1 < (all_magnifications 400 0.0001 90).getD 100 0 ∧
    0.9999 < Real.cos (2 * Real.pi * ((100 : ℕ) : ℝ) / ((400 : ℕ) : ℝ) -
      90 * (Real.pi / 180)) := by
  have h1 : (1 : ℝ) < (all_magnifications 400 0.0001 90).getD 100 0 := by
    rw [mags400_at_100]
    norm_num
  exact ⟨by norm_num, h1, C2_theorem 400 0.0001 90 100 (by norm_num) h1⟩

/-! ## Claim C8 -/

/-- `A(u)` is antitone on the positive axis: `A(u)² = 1 + 4/(u²(u²+4))`. -/
lemma point_lens_A_anti {a b : ℝ} (ha : 0 < a) (hab : a ≤ b) :
    point_lens_A b ≤ point_lens_A a := by
  have hb : 0 < b := lt_of_lt_of_le ha hab
  unfold point_lens_A
  have hsa := sqrt_u_sq_add_four_pos a
  have hsb := sqrt_u_sq_add_four_pos b
  have hsa2 : Real.sqrt (a ^ 2 + 4) ^ 2 = a ^ 2 + 4 := Real.sq_sqrt (by positivity)
  have hsb2 : Real.sqrt (b ^ 2 + 4) ^ 2 = b ^ 2 + 4 := Real.sq_sqrt (by positivity)
  rw [div_le_div_iff₀ (mul_pos hb hsb) (mul_pos ha hsa)]
  have hX0 : 0 ≤ (b ^ 2 + 2) * (a * Real.sqrt (a ^ 2 + 4)) := by positivity
  have hY0 : 0 ≤ (a ^ 2 + 2) * (b * Real.sqrt (b ^ 2 + 4)) := by positivity
  have hsq : ((b ^ 2 + 2) * (a * Real.sqrt (a ^ 2 + 4))) ^ 2 ≤
      ((a ^ 2 + 2) * (b * Real.sqrt (b ^ 2 + 4))) ^ 2 := by
    have e1 : ((b ^ 2 + 2) * (a * Real.sqrt (a ^ 2 + 4))) ^ 2 =
        (b ^ 2 + 2) ^ 2 * a ^ 2 * (a ^ 2 + 4) := by
      rw [mul_pow, mul_pow, hsa2]
      ring
    have e2 : ((a ^ 2 + 2) * (b * Real.sqrt (b ^ 2 + 4))) ^ 2 =
        (a ^ 2 + 2) ^ 2 * b ^ 2 * (b ^ 2 + 4) := by
      rw [mul_pow, mul_pow, hsb2]
      ring
    rw [e1, e2]
    have hab2 : a ^ 2 ≤ b ^ 2 := by nlinarith
    nlinarith [mul_nonneg (sub_nonneg.mpr hab2)
      (by positivity : (0 : ℝ) ≤ a ^ 2 + b ^ 2 + 4)]
  calc (b ^ 2 + 2) * (a * Real.sqrt (a ^ 2 + 4))
      = Real.sqrt (((b ^ 2 + 2) * (a * Real.sqrt (a ^ 2 + 4))) ^ 2) :=
        (Real.sqrt_sq hX0).symm
  _ ≤ Real.sqrt (((a ^ 2 + 2) * (b * Real.sqrt (b ^ 2 + 4))) ^ 2) :=
        Real.sqrt_le_sqrt hsq
  _ = (a ^ 2 + 2) * (b * Real.sqrt (b ^ 2 + 4)) := Real.sqrt_sq hY0

lemma proxy_mono {m1 m2 : ℝ} (h12 : m1 ≤ m2) :
    einstein_radius_visual_proxy m1 ≤ einstein_radius_visual_proxy m2 := by
  unfold einstein_radius_visual_proxy
  have hs := Real.sqrt_le_sqrt
    ((div_le_div_iff_of_pos_right (by norm_num : (0 : ℝ) < 0.001)).mpr h12)
  nlinarith [Real.sqrt_nonneg (m1 / 0.001)]

lemma u_floored_ge (p o s : Vec2) (mr : ℝ) : 0.005 ≤ u_floored p o s mr := by
  unfold u_floored
  split_ifs with h
  · exact le_rfl
  · exact not_lt.mp h

lemma u_floored_anti (p o s : Vec2) {m1 m2 : ℝ} (h1 : 0 < m1) (h12 : m1 ≤ m2) :
    u_floored p o s m2 ≤ u_floored p o s m1 := by
  have hperp : 0 ≤ perpendicular_dist p o s := norm2_nonneg _
  have hp1 : 0 < einstein_radius_visual_proxy m1 := proxy_pos h1
  have hu : u_raw p o s m2 ≤ u_raw p o s m1 := by
    unfold u_raw
    exact div_le_div_of_nonneg_left hperp hp1 (proxy_mono h12)
  unfold u_floored
  split_ifs with ha hb hc
  · exact le_rfl
  · exact not_lt.mp hb
  · linarith [hc]
  · exact hu

/-- Pointwise monotonicity of the magnification in the mass ratio: a larger
mass ratio widens the Einstein proxy (shrinking `u`), raises `A(u)`, loosens
the cutoff, and scales the excess up — with identical alignment gating. -/
lemma mag_mono_mr (p o s : Vec2) {m1 m2 : ℝ} (h1 : 0 < m1) (h12 : m1 ≤ m2) :
    calculate_magnification p o s m1 ≤ calculate_magnification p o s m2 := by
  have h2 : 0 < m2 := lt_of_lt_of_le h1 h12
  simp only [calculate_magnification]
  rw [if_neg (not_le.mpr (proxy_pos h1)), if_neg (not_le.mpr (proxy_pos h2))]
  by_cases hg : gate_passes p o s
  swap
  · rw [if_pos hg, if_pos hg]
  rw [if_neg (not_not_intro hg), if_neg (not_not_intro hg)]
  set u1 := u_floored p o s m1 with hu1
  set u2 := u_floored p o s m2 with hu2
  have hanti : u2 ≤ u1 := u_floored_anti p o s h1 h12
  have hu2lb : 0.005 ≤ u2 := u_floored_ge p o s m2
  have hA21 : point_lens_A u1 ≤ point_lens_A u2 :=
    point_lens_A_anti (by linarith) hanti
  have hA2g : 1 < point_lens_A u2 := point_lens_A_gt_one (by linarith)
  have hA1g : 1 < point_lens_A u1 := point_lens_A_gt_one (by linarith)
  have hsf := scaling_factor_pos
  by_cases hc2 : u2 > 3.0
  · rw [if_pos hc2, if_pos (lt_of_lt_of_le hc2 hanti)]
  · rw [if_neg hc2]
    by_cases hc1 : u1 > 3.0
    · rw [if_pos hc1]
      exact le_trans (le_of_eq (max_self 1.0)) (le_max_left _ _)
    · rw [if_neg hc1]
      have hdiv : m1 / 0.001 ≤ m2 / 0.001 :=
        (div_le_div_iff_of_pos_right (by norm_num : (0 : ℝ) < 0.001)).mpr h12
      have step1 : (point_lens_A u1 - 1) * (m1 / 0.001) ≤
          (point_lens_A u2 - 1) * (m2 / 0.001) :=
        mul_le_mul (by linarith) hdiv (by positivity) (by linarith)
      have he : (1.0 : ℝ) + (point_lens_A u1 - 1.0) * scaling_factor * (m1 / 0.001) ≤
          1.0 + (point_lens_A u2 - 1.0) * scaling_factor * (m2 / 0.001) := by
        nlinarith [step1, hsf]
      exact max_le_max le_rfl he

/-- The seeded fold of `max` over pointwise-dominated mapped lists. -/
lemma foldr_max_le {α : Type} (L : List α) (g f : α → ℝ)
    (hgf : ∀ x ∈ L, g x ≤ f x) :
    (L.map g).foldr max 1 ≤ (L.map f).foldr max 1 := by
  induction L with
  | nil => exact le_refl _
  | cons a l ih =>
    simp only [List.map, List.foldr]
    exact max_le_max (hgf a (List.mem_cons_self a l))
      (ih fun x hx => hgf x (List.mem_cons_of_mem a hx))

/-- C8.  Monotone mass scaling: with the orbital period, observer angle and
geometry fixed, a smaller mass ratio never produces a higher peak
magnification.  (The inequality holds sample by sample, hence for the
maximum of the run.) -/
theorem C8_theorem (P : ℕ) (d : ℝ) {m1 m2 : ℝ} (h1 : 0 < m1) (h12 : m1 < m2)
    (h2 : m2 ≤ 0.002) :
    peak_magnification P m1 d ≤ peak_magnification P m2 d := by
  unfold peak_magnification all_magnifications
  exact foldr_max_le _ _ _ fun t _ => mag_mono_mr _ _ _ h1 (le_of_lt h12)

/-- C8, witness: the theorem at `m1 = 0.0001 < m2 = 0.001`, period 4. -/
theorem C8_witness :
    (0 : ℝ) < 0.0001 ∧ (0.0001 : ℝ) < 0.001 ∧ (0.001 : ℝ) ≤ 0.002 ∧
    peak_magnification 4 0.0001 0 ≤ peak_magnification 4 0.001 0 :=
  ⟨by norm_num, by norm_num, by norm_num,
   C8_theorem 4 0 (by norm_num) (by norm_num) (by norm_num)⟩

end Microlens
